import Mathlib

/-!
Shallow embedding of `lib/charms/operator_libs_linux/v0/snap.py`.

The module manages snap packages: a `Snap` record with mutable state, a
`SnapClient` talking to the snapd daemon, a `SnapCache` mapping names to
records, and batch operations (`add`, `remove`, `ensure`) wrapping
`_wrap_snap_operations`.  External effects (the `snap` command runner and
the daemon's find/list endpoints) are parameters of the embedding; in-place
mutation of a record becomes explicit state passing, and Python exceptions
become `Except`/`Option` error values.
-/

deriving instance DecidableEq for Except

/-- `SnapState`: the state of a snap on the system or in the cache
(`snap.py`, class `SnapState`). -/
inductive SnapState
  | Present
  | Absent
  | Latest
  | Available
deriving DecidableEq

/-- A `Snap` record: name, state, channel, revision, confinement
(`snap.py`, class `Snap.__init__`).  The Python object is mutated in place;
here each operation returns the updated record. -/
structure Snap where
  name : String
  state : SnapState
  channel : String
  revision : String
  confinement : String
deriving DecidableEq

/-- A Python value as it appears in exception args and command lists:
the library passes strings, lists of strings and booleans around. -/
inductive PyVal
  | str (s : String)
  | strList (l : List String)
  | bool (b : Bool)
deriving DecidableEq

/-- The exception kinds this library raises or lets escape:
`SnapError(args...)`, `SnapNotFoundError(name)`, `SnapAPIError(code, status,
message)`, Python `IndexError` (from indexing an empty list) and Python
`TypeError` (from the empty-name-list check in `add`/`remove`). -/
inductive PyExc
  | snapError (args : List PyVal)
  | snapNotFoundError (name : String)
  | snapAPIError (code : Nat) (status : String) (message : String)
  | indexError
  | typeError (msg : String)
deriving DecidableEq

/-- `Error.message` returns `self.args[0]` (`snap.py`, class `Error`):
the first positional argument of the exception, never interpolated. -/
def PyExc.message : PyExc → Option PyVal
  | PyExc.snapError args => args.head?
  | PyExc.snapNotFoundError n => some (PyVal.str n)
  | PyExc.snapAPIError _ _ m => some (PyVal.str m)
  | PyExc.indexError => none
  | PyExc.typeError m => some (PyVal.str m)

/-- Outcome of one external `snap` command: `ok output` for exit status 0,
`err output` for a `CalledProcessError` carrying the captured output. -/
inductive CmdResult
  | ok (output : String)
  | err (output : String)
deriving DecidableEq

/-- The external command runner (`subprocess.check_output`), a parameter of
the embedding: maps an argument vector to its result. -/
abbrev Runner : Type := List String → CmdResult

/-- The argument vector `_cmd = ["snap", command, self._name, *optargs]`
built by `Snap._snap`. -/
def snapCmd (name command : String) (optargs : List String) : List String :=
  "snap" :: command :: name :: optargs

/-- `Snap._snap`: run one snap subcommand for this record.  Returns the
command output, or the `SnapError` raised on `CalledProcessError`, together
with the (singleton) trace of argument vectors handed to the runner. -/
def Snap._snap (s : Snap) (run : Runner) (command : String)
    (optargs : List String) : Except PyExc String × List (List String) :=
  let cmd := snapCmd s.name command optargs
  match run cmd with
  | CmdResult.ok out => (Except.ok out, [cmd])
  | CmdResult.err out =>
      (Except.error (PyExc.snapError
        [PyVal.str "Could not %s snap [%s]: %s",
         PyVal.strList cmd, PyVal.str s.name, PyVal.str out]), [cmd])

/-- `Snap.get`: pass-through to `snap get <name> <key>`. -/
def Snap.get (s : Snap) (run : Runner) (key : String) :
    Except PyExc String × List (List String) :=
  s._snap run "get" [key]

/-- `Snap.set`: pass-through to `snap set <name> <key> <value>`. -/
def Snap.set (s : Snap) (run : Runner) (key value : String) :
    Except PyExc String × List (List String) :=
  s._snap run "set" [key, value]

/-- `Snap.unset`: pass-through to `snap unset <name> <key>`. -/
def Snap.unset (s : Snap) (run : Runner) (key : String) :
    Except PyExc String × List (List String) :=
  s._snap run "unset" [key]

/-- `Snap._install`: `--classic` only when the record's confinement is
classic, `--channel="<value>"` only for a non-empty channel; empty flags are
passed as empty-string arguments, as the Python list does. -/
def Snap._install (s : Snap) (run : Runner) (channel : String) :
    Except PyExc String × List (List String) :=
  let confinement := if s.confinement = "classic" then "--classic" else ""
  let channelArg := if channel ≠ "" then "--channel=\"" ++ channel ++ "\"" else ""
  s._snap run "install" [confinement, channelArg]

/-- `Snap._refresh`: switch to `--<channel>` when one is requested, else pass
the record's current channel. -/
def Snap._refresh (s : Snap) (run : Runner) (channel : String) :
    Except PyExc String × List (List String) :=
  let channelArg := if channel ≠ "" then "--" ++ channel else s.channel
  s._snap run "refresh" [channelArg]

/-- `Snap._remove`: `snap remove <name>`, no further arguments. -/
def Snap._remove (s : Snap) (run : Runner) :
    Except PyExc String × List (List String) :=
  s._snap run "remove" []

/-- `Snap.ensure(state, classic, channel)`: first recompute confinement
(classic is sticky), then, when the current state differs from the desired
one, remove for states other than Present/Latest and install otherwise,
setting `state` only after the command succeeds.  Returns the record as left
by the call (mutation survives a raised error), the raised error if any, and
the trace of external commands issued. -/
def Snap.ensure (s : Snap) (run : Runner) (state : SnapState)
    (classic : Bool) (channel : String) :
    Snap × Option PyExc × List (List String) :=
  let s1 : Snap :=
    { s with confinement :=
        if classic || s.confinement = "classic" then "classic" else "" }
  if s1.state ≠ state then
    let r :=
      if ¬(state = SnapState.Present ∨ state = SnapState.Latest) then
        s1._remove run
      else
        s1._install run channel
    match r with
    | (Except.ok _, tr) => ({ s1 with state := state }, none, tr)
    | (Except.error e, tr) => (s1, some e, tr)
  else
    (s1, none, [])

/-- A sequence of `ensure` calls on the same record (the record object
persists across calls, also across raised errors). -/
def Snap.ensureSeq (s : Snap) (run : Runner) :
    List (SnapState × Bool × String) → Snap
  | [] => s
  | (st, cl, ch) :: rest =>
      Snap.ensureSeq (s.ensure run st cl ch).1 run rest

/-- Installed/available snap data as reported by the daemon
(the fields the library reads from the JSON result). -/
structure SnapInfo where
  name : String
  channel : String
  revision : String
  confinement : String
deriving DecidableEq

/-- A daemon response to the `find` endpoint, a parameter of the embedding:
either an HTTP error (surfaced by `_request_raw` as `SnapAPIError`) or a 2xx
response whose decoded `result` field is a list of matches. -/
inductive FindResponse
  | httpError (code : Nat) (status : String) (message : String)
  | ok (result : List SnapInfo)

/-- The daemon's find endpoint, as consumed by `SnapClient`. -/
abbrev Daemon : Type := String → FindResponse

/-- `SnapClient.get_snap_information(name)`:
`self._request("GET", "find", {"name": name})[0]` — an HTTP error becomes a
`SnapAPIError`; a 2xx response is indexed at `[0]`, which on an empty result
list raises a Python `IndexError`. -/
def SnapClient.get_snap_information (daemon : Daemon) (name : String) :
    Except PyExc SnapInfo :=
  match daemon name with
  | FindResponse.httpError code status message =>
      Except.error (PyExc.snapAPIError code status message)
  | FindResponse.ok result =>
      match result.head? with
      | none => Except.error PyExc.indexError
      | some info => Except.ok info

/-- The cache's `_snap_map`: an association list from snap name to either a
populated record or the `None` placeholder inserted for available names. -/
abbrev SnapMap : Type := List (String × Option Snap)

/-- Lookup in `_snap_map`: `some v` when the key is present (where `v` may
be `none`, the placeholder), `none` when the key is absent (`KeyError`). -/
def mapFind : SnapMap → String → Option (Option Snap)
  | [], _ => none
  | (k, v) :: rest, key => if k = key then some v else mapFind rest key

/-- Assignment `_snap_map[name] = snap`: the new binding shadows any older
one. -/
def mapInsert (m : SnapMap) (key : String) (v : Snap) : SnapMap :=
  (key, some v) :: m

/-- `SnapCache._load_info(name)`: query the daemon and build a record with
state `Available` from the reported fields. -/
def SnapCache._load_info (daemon : Daemon) (name : String) :
    Except PyExc Snap :=
  match SnapClient.get_snap_information daemon name with
  | Except.error e => Except.error e
  | Except.ok info =>
      Except.ok
        { name := info.name, state := SnapState.Available,
          channel := info.channel, revision := info.revision,
          confinement := info.confinement }

/-- Observable I/O of the cache and batch layer: constructing a `SnapCache`
(filesystem check, names file, daemon list query), one daemon find query,
or one external command invocation. -/
inductive Effect
  | cacheConstruct
  | daemonFindQuery (name : String)
  | command (cmd : List String)
deriving DecidableEq

/-- `SnapCache.__getitem__(name)`: return the populated record when the map
has one (no I/O); otherwise call `_load_info` — on success store and return
the new record, on `SnapAPIError` raise `SnapNotFoundError`; any other
exception (such as `IndexError`) propagates unchanged. -/
def SnapCache.getItem (m : SnapMap) (daemon : Daemon) (snap_name : String) :
    List Effect × Except PyExc (Snap × SnapMap) :=
  match mapFind m snap_name with
  | some (some snap) => ([], Except.ok (snap, m))
  | _ =>
      match SnapCache._load_info daemon snap_name with
      | Except.ok snap =>
          ([Effect.daemonFindQuery snap_name],
           Except.ok (snap, mapInsert m snap_name snap))
      | Except.error (PyExc.snapAPIError _ _ _) =>
          ([Effect.daemonFindQuery snap_name],
           Except.error (PyExc.snapNotFoundError snap_name))
      | Except.error e =>
          ([Effect.daemonFindQuery snap_name], Except.error e)

/-- `SnapCache.__init__`'s map population: `_load_available_snaps` inserts a
placeholder for every non-blank line of the names file (skipped when the
file is absent), then `_load_installed_snaps` inserts a `Latest` record for
every installed snap reported by the daemon, shadowing placeholders. -/
def SnapCache.initMap (namesFile : Option (List String))
    (installed : List SnapInfo) : SnapMap :=
  let avail : SnapMap :=
    match namesFile with
    | none => []
    | some lines =>
        (lines.filter (fun l => l.trim ≠ "")).map (fun l => (l.trim, none))
  installed.foldl
    (fun m i =>
      mapInsert m i.name
        { name := i.name, state := SnapState.Latest, channel := i.channel,
          revision := i.revision, confinement := i.confinement })
    avail

/-- The accumulator of `_wrap_snap_operations`: the (global) cache map, the
`success` record list, the `failed` name list, and the I/O effects so far. -/
structure WrapAcc where
  m : SnapMap
  success : List Snap
  failed : List String
  eff : List Effect

/-- The `ensure` call `_wrap_snap_operations` makes for one looked-up
record: `snap.ensure(state=SnapState.Absent)` for a removal batch (channel
and classic are ignored), `snap.ensure(state=state, classic=classic,
channel=channel)` otherwise. -/
def wrapEnsureStep (run : Runner) (state : SnapState) (channel : String)
    (classic : Bool) (snap : Snap) : Snap × Option PyExc × List (List String) :=
  if state = SnapState.Absent then
    snap.ensure run SnapState.Absent false ""
  else
    snap.ensure run state classic channel

/-- The loop body of `_wrap_snap_operations`: look each name up in the cache
(`_Cache[s]`), call `ensure` with the batch target, append to `success`, or
on a caught `SnapError` / `SnapNotFoundError` append the name to `failed`;
any other exception propagates and aborts the loop.  The cache map keeps
each record as the `ensure` call left it. -/
def wrapGo (run : Runner) (daemon : Daemon) (state : SnapState)
    (channel : String) (classic : Bool) :
    List String → WrapAcc → WrapAcc × Option PyExc
  | [], acc => (acc, none)
  | s :: rest, acc =>
      match SnapCache.getItem acc.m daemon s with
      | (eff, Except.error (PyExc.snapNotFoundError _)) =>
          wrapGo run daemon state channel classic rest
            { acc with failed := acc.failed ++ [s],
                       eff := acc.eff ++ eff }
      | (eff, Except.error e) =>
          ({ acc with eff := acc.eff ++ eff }, some e)
      | (eff, Except.ok (snap, m1)) =>
          match wrapEnsureStep run state channel classic snap with
          | (snap1, none, tr) =>
              wrapGo run daemon state channel classic rest
                { m := mapInsert m1 s snap1,
                  success := acc.success ++ [snap1],
                  failed := acc.failed,
                  eff := acc.eff ++ eff ++ tr.map Effect.command }
          | (snap1, some (PyExc.snapError _), tr) =>
              wrapGo run daemon state channel classic rest
                { m := mapInsert m1 s snap1,
                  success := acc.success,
                  failed := acc.failed ++ [s],
                  eff := acc.eff ++ eff ++ tr.map Effect.command }
          | (snap1, some e, tr) =>
              ({ acc with m := mapInsert m1 s snap1,
                          eff := acc.eff ++ eff ++ tr.map Effect.command },
               some e)

/-- The value `_wrap_snap_operations` returns: a bare record when exactly
one snap succeeded, else the list of successes. -/
inductive WrapReturn
  | single (s : Snap)
  | several (l : List Snap)
deriving DecidableEq

/-- The return step of `_wrap_snap_operations`:
`snaps["success"] if len(...) > 1 else snaps["success"][0]` — indexing an
empty success list raises `IndexError`. -/
def wrapReturn (l : List Snap) : Except PyExc WrapReturn :=
  if l.length > 1 then Except.ok (WrapReturn.several l)
  else
    match l.head? with
    | some x => Except.ok (WrapReturn.single x)
    | none => Except.error PyExc.indexError

/-- `_wrap_snap_operations(snap_names, state, channel, classic)`: process
every name, then raise one `SnapError` naming all failed snaps when the
failed list is non-empty, else return the successes.  The final cache map
and effect trace are returned alongside the outcome (the cache is global
state in the Python module). -/
def _wrap_snap_operations (run : Runner) (daemon : Daemon) (m0 : SnapMap)
    (snap_names : List String) (state : SnapState) (channel : String)
    (classic : Bool) : SnapMap × List Effect × Except PyExc WrapReturn :=
  match wrapGo run daemon state channel classic snap_names
      { m := m0, success := [], failed := [], eff := [] } with
  | (acc, some e) => (acc.m, acc.eff, Except.error e)
  | (acc, none) =>
      if acc.failed.length ≠ 0 then
        (acc.m, acc.eff,
         Except.error (PyExc.snapError
           [PyVal.str ("Failed to install or refresh snap(s): " ++
             String.intercalate ", " acc.failed)]))
      else
        (acc.m, acc.eff, wrapReturn acc.success)

/-- The `@_cache_init` decorator step: when the global cache is unset,
construct a `SnapCache` (filesystem check, names file read and daemon
list-installed query — one `cacheConstruct` effect); otherwise reuse it with
no I/O. -/
def _cache_init (cache : Option SnapMap) (namesFile : Option (List String))
    (installed : List SnapInfo) : SnapMap × List Effect :=
  match cache with
  | some m => (m, [])
  | none => (SnapCache.initMap namesFile installed, [Effect.cacheConstruct])

/-- `add(snap_names, state, channel, classic)` as decorated by
`@_cache_init`: initialise the cache if needed, then raise `TypeError` on an
empty name list, else run `_wrap_snap_operations`. -/
def add (cache : Option SnapMap) (namesFile : Option (List String))
    (installed : List SnapInfo) (run : Runner) (daemon : Daemon)
    (snap_names : List String) (state : SnapState) (channel : String)
    (classic : Bool) : SnapMap × List Effect × Except PyExc WrapReturn :=
  let (m0, initEff) := _cache_init cache namesFile installed
  if snap_names = [] then
    (m0, initEff, Except.error
      (PyExc.typeError "Expected at least one snap to add, received zero!"))
  else
    let (m1, eff, res) :=
      _wrap_snap_operations run daemon m0 snap_names state channel classic
    (m1, initEff ++ eff, res)

/-- `remove(snap_names)` as decorated by `@_cache_init`: empty-list check,
then `_wrap_snap_operations` with state `Absent`, channel `""`, classic
`False`. -/
def remove (cache : Option SnapMap) (namesFile : Option (List String))
    (installed : List SnapInfo) (run : Runner) (daemon : Daemon)
    (snap_names : List String) : SnapMap × List Effect × Except PyExc WrapReturn :=
  let (m0, initEff) := _cache_init cache namesFile installed
  if snap_names = [] then
    (m0, initEff, Except.error
      (PyExc.typeError "Expected at least one snap to add, received zero!"))
  else
    let (m1, eff, res) :=
      _wrap_snap_operations run daemon m0 snap_names SnapState.Absent "" false
    (m1, initEff ++ eff, res)

/-- Batch `ensure(snap_names, state, channel, classic)` as decorated by
`@_cache_init`: route to `add` for the strings "present"/"latest", else to
`remove`; the inner call sees the cache already initialised. -/
def ensureBatch (cache : Option SnapMap) (namesFile : Option (List String))
    (installed : List SnapInfo) (run : Runner) (daemon : Daemon)
    (snap_names : List String) (state : String) (channel : String)
    (classic : Bool) : SnapMap × List Effect × Except PyExc WrapReturn :=
  let (m0, initEff) := _cache_init cache namesFile installed
  let inner :=
    if state = "present" ∨ state = "latest" then
      add (some m0) namesFile installed run daemon snap_names
        (if state = "present" then SnapState.Present else SnapState.Latest)
        channel classic
    else
      remove (some m0) namesFile installed run daemon snap_names
  (inner.1, initEff ++ inner.2.1, inner.2.2)

/-- Truthiness of a Python value, as used by `"--classic" if classic else ""`. -/
def PyVal.truthy : PyVal → Bool
  | PyVal.str s => s ≠ ""
  | PyVal.strList l => l ≠ []
  | PyVal.bool b => b

/-- The command list `install_local` builds from its `filename`, `classic`
and `dangerous` parameters:
`["snap", "install", filename, "--classic" if classic else "", "--dangerous"
if dangerous else ""]`.  Arguments are Python values since the function is
untyped at runtime. -/
def install_local_cmd (filename classic dangerous : PyVal) : List PyVal :=
  [PyVal.str "snap", PyVal.str "install", filename,
   if classic.truthy then PyVal.str "--classic" else PyVal.str "",
   if dangerous.truthy then PyVal.str "--dangerous" else PyVal.str ""]

/-- The signature of `install_local` in the source is
`install_local(self, filename, classic=False, dangerous=False)`: a
module-level function with a spurious leading `self` parameter.  Calling it
with three positional arguments `(path, classic, dangerous)` therefore binds
`self := path`, `filename := classic`, `classic := dangerous` and
`dangerous := False`; `self` is never read by the body. -/
def install_local_call3 (_path classic dangerous : PyVal) : List PyVal :=
  install_local_cmd classic dangerous (PyVal.bool false)

/-- The command list the docstring of `install_local` (and the spec)
describe: install the given local `.snap` file path, passing `--classic`
and `--dangerous` exactly when the respective flags are true. -/
def install_local_documented (path : String) (classic dangerous : Bool) :
    List PyVal :=
  install_local_cmd (PyVal.str path) (PyVal.bool classic) (PyVal.bool dangerous)

/-- The single external command a state-changing `ensure` call issues:
the remove command for desired states other than Present/Latest, else the
install command with the confinement flag computed from the (just updated)
confinement and the channel flag from a non-empty channel. -/
def ensureCmd (s : Snap) (t : SnapState) (c : Bool) (ch : String) : List String :=
  if ¬(t = SnapState.Present ∨ t = SnapState.Latest) then
    snapCmd s.name "remove" []
  else
    snapCmd s.name "install"
      [if c || s.confinement = "classic" then "--classic" else "",
       if ch ≠ "" then "--channel=\"" ++ ch ++ "\"" else ""]

/-- A runner on which every external command exits 0. -/
def okRunner : Runner := fun _ => CmdResult.ok ""

/-- A runner on which every external command exits non-zero. -/
def errRunner : Runner := fun _ => CmdResult.err "boom"

/-- A record for an installed snap with strict confinement. -/
def fooStrict : Snap :=
  { name := "foo", state := SnapState.Present, channel := "stable",
    revision := "1", confinement := "strict" }

/-- A record for an installed snap with empty confinement. -/
def fooPlain : Snap :=
  { name := "foo", state := SnapState.Present, channel := "stable",
    revision := "1", confinement := "" }

/-- A record for an installed snap with classic confinement. -/
def fooClassic : Snap :=
  { name := "foo", state := SnapState.Present, channel := "stable",
    revision := "1", confinement := "classic" }

/-- A daemon whose find endpoint answers 2xx with an empty result list
(zero matches reported in the response body). -/
def emptyFindDaemon : Daemon := fun _ => FindResponse.ok []

/-- A daemon whose find endpoint answers 404, as snapd does for a name with
zero matches. -/
def daemon404 : Daemon := fun _ => FindResponse.httpError 404 "Not Found" "snap not found"

/-- Installed-snap records for the concrete two-name batch scenario. -/
def recAB : String → Snap := fun s =>
  { name := s, state := SnapState.Present, channel := "stable",
    revision := "1", confinement := "strict" }

/-- A runner that fails exactly the commands naming the snap "b". -/
def failOnB : Runner := fun cmd =>
  if cmd.getD 2 "" = "b" then CmdResult.err "error" else CmdResult.ok ""

/-- A cache map holding the two installed records of the scenario. -/
def m0AB : SnapMap := [("a", some (recAB "a")), ("b", some (recAB "b"))]

/-- Closed-form characterization of `Snap.ensure`. -/
theorem ensure_eq (s : Snap) (run : Runner) (t : SnapState) (c : Bool) (ch : String) :
    s.ensure run t c ch =
      (if s.state = t then
        ({ s with confinement :=
            if c || s.confinement = "classic" then "classic" else "" }, none, [])
      else
        match run (ensureCmd s t c ch) with
        | CmdResult.ok _ =>
            ({ s with
                confinement :=
                  if c || s.confinement = "classic" then "classic" else "",
                state := t },
             none, [ensureCmd s t c ch])
        | CmdResult.err out =>
            ({ s with confinement :=
                if c || s.confinement = "classic" then "classic" else "" },
             some (PyExc.snapError
               [PyVal.str "Could not %s snap [%s]: %s",
                PyVal.strList (ensureCmd s t c ch), PyVal.str s.name,
                PyVal.str out]),
             [ensureCmd s t c ch])) := by
  by_cases hst : s.state = t
  · simp [Snap.ensure, hst]
  · by_cases hc : c = true <;>
      [skip; rw [Bool.not_eq_true] at hc] <;>
      by_cases hconf : s.confinement = "classic" <;>
      by_cases htgt : t = SnapState.Present ∨ t = SnapState.Latest <;>
      cases hr : run (ensureCmd s t c ch) <;>
      simp [ensureCmd, snapCmd, htgt, hconf, hc] at hr <;>
      simp [Snap.ensure, Snap._remove, Snap._install, Snap._snap, snapCmd,
        ensureCmd, hst, htgt, hconf, hc, hr]

/-- The record's confinement after any `ensure` call: classic exactly when
the classic flag was passed or the record was already classic. -/
theorem ensure_confinement (s : Snap) (run : Runner) (t : SnapState)
    (c : Bool) (ch : String) :
    (s.ensure run t c ch).1.confinement =
      (if c || s.confinement = "classic" then "classic" else "") := by
  rw [ensure_eq]
  split
  · rfl
  · cases run (ensureCmd s t c ch) <;> rfl

/-- When `ensure` raises no error, the record ends in the desired state. -/
theorem ensure_err_none_state (s : Snap) (run : Runner) (t : SnapState)
    (c : Bool) (ch : String) (h : (s.ensure run t c ch).2.1 = none) :
    (s.ensure run t c ch).1.state = t := by
  rw [ensure_eq] at h ⊢
  by_cases hst : s.state = t
  · rw [if_pos hst] at h ⊢
    exact hst
  · rw [if_neg hst] at h ⊢
    cases hr : run (ensureCmd s t c ch) <;> simp [hr] at h ⊢

/-- When `ensure` raises, the record's state is unchanged and the raised
error is a `SnapError`. -/
theorem ensure_err_some (s : Snap) (run : Runner) (t : SnapState)
    (c : Bool) (ch : String) (e : PyExc)
    (h : (s.ensure run t c ch).2.1 = some e) :
    (s.ensure run t c ch).1.state = s.state ∧
      ∃ args, e = PyExc.snapError args := by
  rw [ensure_eq] at h ⊢
  by_cases hst : s.state = t
  · rw [if_pos hst] at h
    simp at h
  · rw [if_neg hst] at h ⊢
    cases hr : run (ensureCmd s t c ch) <;> simp [hr] at h ⊢
    exact ⟨_, h.symm⟩

/-- Case split of `ensureCmd`: the remove command exactly for desired states
Absent and Available, the install command for Present and Latest. -/
theorem ensureCmd_cases (s : Snap) (t : SnapState) (c : Bool) (ch : String) :
    ensureCmd s t c ch =
      (if t = SnapState.Absent ∨ t = SnapState.Available then
        ["snap", "remove", s.name]
      else
        ["snap", "install", s.name,
         if c || s.confinement = "classic" then "--classic" else "",
         if ch ≠ "" then "--channel=\"" ++ ch ++ "\"" else ""]) := by
  cases t <;> simp [ensureCmd, snapCmd]

/-- A state-changing `ensure` call issues exactly one external command,
namely `ensureCmd`. -/
theorem ensure_trace (s : Snap) (run : Runner) (t : SnapState)
    (c : Bool) (ch : String) (h : s.state ≠ t) :
    (s.ensure run t c ch).2.2 = [ensureCmd s t c ch] := by
  rw [ensure_eq, if_neg h]
  cases run (ensureCmd s t c ch) <;> rfl

/-- Lookup after inserting the same key. -/
theorem mapFind_insert_self (m : SnapMap) (k : String) (v : Snap) :
    mapFind (mapInsert m k v) k = some (some v) := by
  simp [mapInsert, mapFind]

/-- Lookup after inserting a different key. -/
theorem mapFind_insert_ne (m : SnapMap) (k k' : String) (v : Snap)
    (h : k ≠ k') : mapFind (mapInsert m k v) k' = mapFind m k' := by
  simp [mapInsert, mapFind, h]

/-- A cache lookup for a populated record is a hit: no I/O, map unchanged. -/
theorem getItem_hit (m : SnapMap) (daemon : Daemon) (name : String)
    (snap : Snap) (h : mapFind m name = some (some snap)) :
    SnapCache.getItem m daemon name = ([], Except.ok (snap, m)) := by
  unfold SnapCache.getItem
  rw [h]

/-- An error-free batch `ensure` step ends in the batch's target state. -/
theorem wrapEnsureStep_none_state (run : Runner) (t : SnapState)
    (ch : String) (cl : Bool) (r : Snap)
    (h : (wrapEnsureStep run t ch cl r).2.1 = none) :
    (wrapEnsureStep run t ch cl r).1.state = t := by
  by_cases ht : t = SnapState.Absent
  · subst ht
    simp only [wrapEnsureStep, if_pos rfl] at h ⊢
    exact ensure_err_none_state r run SnapState.Absent false "" h
  · simp only [wrapEnsureStep, if_neg ht] at h ⊢
    exact ensure_err_none_state r run t cl ch h

/-- A failing batch `ensure` step leaves the record's state unchanged. -/
theorem wrapEnsureStep_some_state (run : Runner) (t : SnapState)
    (ch : String) (cl : Bool) (r : Snap) (e : PyExc)
    (h : (wrapEnsureStep run t ch cl r).2.1 = some e) :
    (wrapEnsureStep run t ch cl r).1.state = r.state := by
  by_cases ht : t = SnapState.Absent
  · subst ht
    simp only [wrapEnsureStep, if_pos rfl] at h ⊢
    exact (ensure_err_some r run SnapState.Absent false "" e h).1
  · simp only [wrapEnsureStep, if_neg ht] at h ⊢
    exact (ensure_err_some r run t cl ch e h).1

/-- Filtering a duplicate-free list for one of its members yields exactly
that member. -/
theorem filter_eq_singleton (l : List String) (b : String) (hnd : l.Nodup)
    (hb : b ∈ l) : l.filter (fun s => s = b) = [b] := by
  induction l with
  | nil => cases hb
  | cons x xs ih =>
      rcases List.nodup_cons.mp hnd with ⟨hx, hxs⟩
      rcases List.mem_cons.mp hb with h | h
      · subst h
        have hnil : xs.filter (fun s => s = b) = [] := by
          rw [List.filter_eq_nil_iff]
          intro a ha
          simp only [decide_eq_true_eq]
          rintro rfl
          exact hx ha
        simp [List.filter_cons, hnil]
      · have hxb : ¬(x = b) := by
          rintro rfl
          exact hx h
        simp only [List.filter_cons, decide_eq_true_eq, hxb, if_false]
        exact ih hxs h

/-- Loop invariant of `_wrap_snap_operations` when the `ensure` step fails
with a `SnapError` exactly for the name `bad` and succeeds for every other
name: the loop completes, `failed` collects exactly the occurrences of
`bad`, and the cache map holds every processed record as its `ensure` call
left it. -/
theorem wrapGo_one_fail (run : Runner) (daemon : Daemon) (target : SnapState)
    (channel : String) (classic : Bool) (recm : String → Snap) (bad : String) :
    ∀ (names : List String) (acc : WrapAcc),
      names.Nodup →
      (∀ s ∈ names, mapFind acc.m s = some (some (recm s))) →
      (∀ s ∈ names, s ≠ bad →
        (wrapEnsureStep run target channel classic (recm s)).2.1 = none) →
      (∀ s ∈ names, s = bad →
        ∃ args, (wrapEnsureStep run target channel classic (recm s)).2.1 =
          some (PyExc.snapError args)) →
      (wrapGo run daemon target channel classic names acc).2 = none ∧
      (wrapGo run daemon target channel classic names acc).1.failed =
        acc.failed ++ names.filter (fun s => s = bad) ∧
      (∀ x : String,
        mapFind (wrapGo run daemon target channel classic names acc).1.m x =
          if x ∈ names then
            some (some (wrapEnsureStep run target channel classic (recm x)).1)
          else mapFind acc.m x) := by
  intro names
  induction names with
  | nil =>
      intro acc _ _ _ _
      refine ⟨rfl, by simp [wrapGo], ?_⟩
      intro x
      simp [wrapGo]
  | cons s rest ih =>
      intro acc hnd hrec hok hbad
      rcases List.nodup_cons.mp hnd with ⟨hs_rest, hnd_rest⟩
      have hs : mapFind acc.m s = some (some (recm s)) := hrec s (by simp)
      have hgi := getItem_hit acc.m daemon s (recm s) hs
      by_cases hsb : s = bad
      · obtain ⟨args, hfail⟩ := hbad s (by simp) hsb
        rcases hw : wrapEnsureStep run target channel classic (recm s) with
          ⟨snap1, err1, tr1⟩
        have herr : err1 = some (PyExc.snapError args) := by
          rw [hw] at hfail
          exact hfail
        subst herr
        have hstep :
            wrapGo run daemon target channel classic (s :: rest) acc =
              wrapGo run daemon target channel classic rest
                ⟨mapInsert acc.m s snap1, acc.success, acc.failed ++ [s],
                  acc.eff ++ [] ++ tr1.map Effect.command⟩ := by
          simp only [wrapGo, hgi, hw]
        rw [hstep]
        have ihres := ih
          ⟨mapInsert acc.m s snap1, acc.success, acc.failed ++ [s],
            acc.eff ++ [] ++ tr1.map Effect.command⟩ hnd_rest
          (by
            intro t ht
            have htns : s ≠ t := fun hh => hs_rest (hh ▸ ht)
            show mapFind (mapInsert acc.m s snap1) t = some (some (recm t))
            rw [mapFind_insert_ne acc.m s t snap1 htns]
            exact hrec t (by simp [ht]))
          (fun t ht htb => hok t (by simp [ht]) htb)
          (fun t ht htb => hbad t (by simp [ht]) htb)
        refine ⟨ihres.1, ?_, ?_⟩
        · rw [ihres.2.1]
          simp [List.filter_cons, hsb]
        · intro x
          rw [ihres.2.2 x]
          by_cases hxr : x ∈ rest
          · simp [hxr, List.mem_cons]
          · by_cases hxs : x = s
            · subst hxs
              simp [hxr, hw, mapFind_insert_self]
            · simp only [List.mem_cons, hxr, or_false, hxs, if_false]
              show mapFind (mapInsert acc.m s snap1) x = mapFind acc.m x
              exact mapFind_insert_ne acc.m s x snap1 (fun hh => hxs hh.symm)
      · have hnone := hok s (by simp) hsb
        rcases hw : wrapEnsureStep run target channel classic (recm s) with
          ⟨snap1, err1, tr1⟩
        have herr : err1 = none := by
          rw [hw] at hnone
          exact hnone
        subst herr
        have hstep :
            wrapGo run daemon target channel classic (s :: rest) acc =
              wrapGo run daemon target channel classic rest
                ⟨mapInsert acc.m s snap1, acc.success ++ [snap1], acc.failed,
                  acc.eff ++ [] ++ tr1.map Effect.command⟩ := by
          simp only [wrapGo, hgi, hw]
        rw [hstep]
        have ihres := ih
          ⟨mapInsert acc.m s snap1, acc.success ++ [snap1], acc.failed,
            acc.eff ++ [] ++ tr1.map Effect.command⟩ hnd_rest
          (by
            intro t ht
            have htns : s ≠ t := fun hh => hs_rest (hh ▸ ht)
            show mapFind (mapInsert acc.m s snap1) t = some (some (recm t))
            rw [mapFind_insert_ne acc.m s t snap1 htns]
            exact hrec t (by simp [ht]))
          (fun t ht htb => hok t (by simp [ht]) htb)
          (fun t ht htb => hbad t (by simp [ht]) htb)
        refine ⟨ihres.1, ?_, ?_⟩
        · rw [ihres.2.1]
          simp only [List.filter_cons, decide_eq_true_eq, hsb, if_false]
        · intro x
          rw [ihres.2.2 x]
          by_cases hxr : x ∈ rest
          · simp [hxr, List.mem_cons]
          · by_cases hxs : x = s
            · subst hxs
              simp [hxr, hw, mapFind_insert_self]
            · simp only [List.mem_cons, hxr, or_false, hxs, if_false]
              show mapFind (mapInsert acc.m s snap1) x = mapFind acc.m x
              exact mapFind_insert_ne acc.m s x snap1 (fun hh => hxs hh.symm)

/-- C1, counterexample: with desired state Available and a differing current
state, `ensure` issues the remove command, not the install command the claim
predicts for Available. -/
theorem C1_counterexample :
    (fooStrict.ensure okRunner SnapState.Available false "").2.2 =
      [["snap", "remove", "foo"]] ∧
    (fooStrict.ensure okRunner SnapState.Available false "").2.2 ≠
      [["snap", "install", "foo", "", ""]] := by decide

/-- C1, amended: for every record whose current state differs from the
desired state, `ensure` invokes the remove action exactly when the desired
state is Absent or Available, and the install action exactly when it is
Present or Latest. -/
theorem C1_ensure_action_selection (s : Snap) (run : Runner) (t : SnapState)
    (c : Bool) (ch : String) (h : s.state ≠ t) :
    (s.ensure run t c ch).2.2 =
      (if t = SnapState.Absent ∨ t = SnapState.Available then
        [["snap", "remove", s.name]]
      else
        [["snap", "install", s.name,
          if c || s.confinement = "classic" then "--classic" else "",
          if ch ≠ "" then "--channel=\"" ++ ch ++ "\"" else ""]]) := by
  rw [ensure_trace s run t c ch h, ensureCmd_cases]
  by_cases hA : t = SnapState.Absent ∨ t = SnapState.Available <;> simp [hA]

/-- C1, witness: the amended theorem evaluated on a concrete record and the
desired state Available. -/
theorem C1_witness :
    fooStrict.state ≠ SnapState.Available ∧
    (fooStrict.ensure okRunner SnapState.Available false "").2.2 =
      (if SnapState.Available = SnapState.Absent ∨
          SnapState.Available = SnapState.Available then
        [["snap", "remove", fooStrict.name]]
      else
        [["snap", "install", fooStrict.name,
          if false || fooStrict.confinement = "classic" then "--classic" else "",
          if "" ≠ "" then "--channel=\"" ++ "" ++ "\"" else ""]]) :=
  ⟨by decide,
   C1_ensure_action_selection fooStrict okRunner SnapState.Available false ""
     (by decide)⟩

/-- C2, counterexample: on a record with strict confinement already in the
desired state, `ensure(Present, classic=true)` runs no command yet sets the
confinement field to classic — the claim says every field, confinement
included, is left unchanged. -/
theorem C2_counterexample :
    fooStrict.state = SnapState.Present ∧
    fooStrict.confinement = "strict" ∧
    (fooStrict.ensure okRunner SnapState.Present true "stable").2.2 = [] ∧
    (fooStrict.ensure okRunner SnapState.Present true "stable").1.confinement =
      "classic" := by decide

/-- C2, amended: when the current state already equals the desired state,
`ensure` runs no external command and leaves name, state, channel and
revision unchanged, but confinement is recomputed first (the assignment
precedes the already-equal check): classic when the flag is set or the
record was already classic, empty otherwise. -/
theorem C2_ensure_noop (s : Snap) (run : Runner) (t : SnapState)
    (c : Bool) (ch : String) (h : s.state = t) :
    s.ensure run t c ch =
      ({ s with confinement :=
          if c || s.confinement = "classic" then "classic" else "" },
       none, []) := by
  rw [ensure_eq, if_pos h]

/-- C2, witness: the amended theorem evaluated on a strict-confinement
record already in the desired state. -/
theorem C2_witness :
    fooStrict.state = SnapState.Present ∧
    fooStrict.ensure okRunner SnapState.Present true "stable" =
      ({ fooStrict with confinement :=
          if true || fooStrict.confinement = "classic" then "classic" else "" },
       none, []) :=
  ⟨by decide, C2_ensure_noop fooStrict okRunner SnapState.Present true "stable"
    (by decide)⟩

/-- C3, counterexample: when the daemon reports zero matches through a 2xx
response with an empty result list, the cache lookup raises the raw
`IndexError` from `get_snap_information`, not `SnapNotFoundError`. -/
theorem C3_counterexample :
    (SnapCache.getItem [] emptyFindDaemon "foo").2 =
      Except.error PyExc.indexError ∧
    (SnapCache.getItem [] emptyFindDaemon "foo").2 ≠
      Except.error (PyExc.snapNotFoundError "foo") := by decide

/-- C3, amended: when the daemon answers the find query with an HTTP error
response (as snapd does for zero matches) and the cache has no populated
record for the name, the lookup raises `SnapNotFoundError`, never the
underlying `SnapAPIError`. -/
theorem C3_not_found_translation (m : SnapMap) (daemon : Daemon)
    (name : String) (code : Nat) (status msg : String)
    (hmap : mapFind m name = none ∨ mapFind m name = some none)
    (hd : daemon name = FindResponse.httpError code status msg) :
    SnapCache.getItem m daemon name =
      ([Effect.daemonFindQuery name],
       Except.error (PyExc.snapNotFoundError name)) := by
  unfold SnapCache.getItem SnapCache._load_info SnapClient.get_snap_information
  rcases hmap with h | h <;> rw [h, hd]

/-- C3, witness: the amended theorem evaluated on an empty-placeholder cache
and a daemon answering 404. -/
theorem C3_witness :
    (mapFind [("foo", none)] "foo" = none ∨
      mapFind [("foo", none)] "foo" = some none) ∧
    SnapCache.getItem [("foo", none)] daemon404 "foo" =
      ([Effect.daemonFindQuery "foo"],
       Except.error (PyExc.snapNotFoundError "foo")) :=
  ⟨by decide,
   C3_not_found_translation [("foo", none)] daemon404 "foo" 404 "Not Found"
     "snap not found" (by decide) rfl⟩

/-- C4: `install_local` is a module-level function whose signature carries a
spurious leading `self` parameter, contradicting its own docstring.  Called
with the three documented arguments (path, classic, dangerous), the path
binds to `self` and is dropped: the built command installs the value of the
classic flag and passes neither `--classic` nor the path, unlike the
command the docstring describes. -/
theorem C4_install_local_self_bug :
    install_local_call3 (PyVal.str "/tmp/foo.snap") (PyVal.bool true)
        (PyVal.bool false) =
      [PyVal.str "snap", PyVal.str "install", PyVal.bool true, PyVal.str "",
       PyVal.str ""] ∧
    install_local_documented "/tmp/foo.snap" true false =
      [PyVal.str "snap", PyVal.str "install", PyVal.str "/tmp/foo.snap",
       PyVal.str "--classic", PyVal.str ""] ∧
    install_local_call3 (PyVal.str "/tmp/foo.snap") (PyVal.bool true)
        (PyVal.bool false) ≠
      install_local_documented "/tmp/foo.snap" true false := by decide

/-- C5, counterexample: the first `add` call with an empty name list on a
cold cache performs the cache construction I/O (filesystem check, names
file, daemon list query) before raising the validation `TypeError` — the
claim says the error precedes any I/O, cache construction in particular. -/
theorem C5_counterexample :
    (add none (some ["foo"]) [] okRunner emptyFindDaemon [] SnapState.Latest
        "latest" false).2.1 = [Effect.cacheConstruct] ∧
    (add none (some ["foo"]) [] okRunner emptyFindDaemon [] SnapState.Latest
        "latest" false).2.2 = Except.error
      (PyExc.typeError "Expected at least one snap to add, received zero!") := by
  decide

/-- C5, amended: `add`, `remove` and batch `ensure` with an empty name list
raise `TypeError` before any per-name daemon query or external command; the
only I/O that can precede the error is the one-time cache construction of
the `@_cache_init` decorator, and with an already-initialised cache no I/O
at all precedes it. -/
theorem C5_empty_list_validation (cache : Option SnapMap)
    (nf : Option (List String)) (inst : List SnapInfo) (run : Runner)
    (daemon : Daemon) (st : SnapState) (stStr ch : String) (cl : Bool)
    (m : SnapMap) :
    (add cache nf inst run daemon [] st ch cl).2.2 = Except.error
      (PyExc.typeError "Expected at least one snap to add, received zero!") ∧
    (add cache nf inst run daemon [] st ch cl).2.1 =
      (_cache_init cache nf inst).2 ∧
    (remove cache nf inst run daemon []).2.2 = Except.error
      (PyExc.typeError "Expected at least one snap to add, received zero!") ∧
    (remove cache nf inst run daemon []).2.1 =
      (_cache_init cache nf inst).2 ∧
    (ensureBatch cache nf inst run daemon [] stStr ch cl).2.2 = Except.error
      (PyExc.typeError "Expected at least one snap to add, received zero!") ∧
    (ensureBatch cache nf inst run daemon [] stStr ch cl).2.1 =
      (_cache_init cache nf inst).2 ∧
    (_cache_init (some m) nf inst).2 = [] := by
  refine ⟨?_, ?_, ?_, ?_, ?_, ?_, ?_⟩ <;>
    by_cases hp : stStr = "present" ∨ stStr = "latest" <;>
    simp [add, remove, ensureBatch, _cache_init, hp]

/-- C6: for every `ensure` call that triggers an external action, a zero
exit updates the record's state to the desired value, and a non-zero exit
raises a `SnapError` and leaves the state field unchanged. -/
theorem C6_ensure_state_transition (s : Snap) (run : Runner) (t : SnapState)
    (c : Bool) (ch : String) (_h : s.state ≠ t) :
    ((s.ensure run t c ch).2.1 = none → (s.ensure run t c ch).1.state = t) ∧
    (∀ e, (s.ensure run t c ch).2.1 = some e →
      (s.ensure run t c ch).1.state = s.state ∧
        ∃ args, e = PyExc.snapError args) :=
  ⟨fun hn => ensure_err_none_state s run t c ch hn,
   fun e he => ensure_err_some s run t c ch e he⟩

/-- C6, witness: the theorem evaluated on a concrete record with a failing
runner. -/
theorem C6_witness :
    fooPlain.state ≠ SnapState.Absent ∧
    (((fooPlain.ensure errRunner SnapState.Absent false "").2.1 = none →
        (fooPlain.ensure errRunner SnapState.Absent false "").1.state =
          SnapState.Absent) ∧
      (∀ e, (fooPlain.ensure errRunner SnapState.Absent false "").2.1 = some e →
        (fooPlain.ensure errRunner SnapState.Absent false "").1.state =
            fooPlain.state ∧
          ∃ args, e = PyExc.snapError args)) :=
  ⟨by decide,
   C6_ensure_state_transition fooPlain errRunner SnapState.Absent false ""
     (by decide)⟩

/-- C7: for every batch of distinct cached names in which exactly one
name's `ensure` action fails (with a `SnapError`) and the rest succeed, the
batch raises a single `SnapError` naming exactly the failed name, while the
cache records of the other names have been mutated to the desired state and
the failed name's record keeps its state. -/
theorem C7_batch_single_failure (run : Runner) (daemon : Daemon)
    (m0 : SnapMap) (names : List String) (target : SnapState)
    (channel : String) (classic : Bool) (recm : String → Snap) (bad : String)
    (hnd : names.Nodup) (hbad : bad ∈ names)
    (hrec : ∀ s ∈ names, mapFind m0 s = some (some (recm s)))
    (hok : ∀ s ∈ names, s ≠ bad →
      (wrapEnsureStep run target channel classic (recm s)).2.1 = none)
    (hfail : ∃ args,
      (wrapEnsureStep run target channel classic (recm bad)).2.1 =
        some (PyExc.snapError args)) :
    (_wrap_snap_operations run daemon m0 names target channel classic).2.2 =
      Except.error (PyExc.snapError
        [PyVal.str ("Failed to install or refresh snap(s): " ++ bad)]) ∧
    (∀ s ∈ names, s ≠ bad →
      mapFind (_wrap_snap_operations run daemon m0 names target channel
          classic).1 s =
        some (some (wrapEnsureStep run target channel classic (recm s)).1) ∧
      (wrapEnsureStep run target channel classic (recm s)).1.state = target) ∧
    (mapFind (_wrap_snap_operations run daemon m0 names target channel
        classic).1 bad =
      some (some (wrapEnsureStep run target channel classic (recm bad)).1) ∧
    (wrapEnsureStep run target channel classic (recm bad)).1.state =
      (recm bad).state) := by
  have hgo := wrapGo_one_fail run daemon target channel classic recm bad names
    ⟨m0, [], [], []⟩ hnd hrec hok
    (by
      intro s hs hsb
      subst hsb
      exact hfail)
  obtain ⟨hnone, hfailed, hmap⟩ := hgo
  rcases hpair : wrapGo run daemon target channel classic names
      ⟨m0, [], [], []⟩ with ⟨acc, e⟩
  rw [hpair] at hnone hfailed hmap
  have he : e = none := hnone
  subst he
  have hfl : acc.failed = [bad] := by
    simpa [filter_eq_singleton names bad hnd hbad] using hfailed
  have hws : _wrap_snap_operations run daemon m0 names target channel classic =
      (acc.m, acc.eff, Except.error (PyExc.snapError
        [PyVal.str ("Failed to install or refresh snap(s): " ++
          String.intercalate ", " acc.failed)])) := by
    unfold _wrap_snap_operations
    rw [hpair]
    simp [hfl]
  rw [hws]
  have hinter : String.intercalate ", " [bad] = bad := by
    simp [String.intercalate, String.intercalate.go]
  refine ⟨by simp [hfl, hinter], ?_, ?_⟩
  · intro s hsn hsnb
    have hm := hmap s
    rw [if_pos hsn] at hm
    exact ⟨hm, wrapEnsureStep_none_state run target channel classic (recm s)
      (hok s hsn hsnb)⟩
  · have hm := hmap bad
    rw [if_pos hbad] at hm
    obtain ⟨args, hargs⟩ := hfail
    exact ⟨hm, wrapEnsureStep_some_state run target channel classic (recm bad)
      (PyExc.snapError args) hargs⟩

/-- C7, witness: the theorem evaluated on the concrete batch ["a", "b"]
where the remove command fails exactly for "b". -/
theorem C7_witness :
    (["a", "b"].Nodup ∧ "b" ∈ ["a", "b"] ∧
      (∀ s ∈ ["a", "b"], mapFind m0AB s = some (some (recAB s))) ∧
      (∀ s ∈ ["a", "b"], s ≠ "b" →
        (wrapEnsureStep failOnB SnapState.Absent "" false (recAB s)).2.1 =
          none) ∧
      (∃ args,
        (wrapEnsureStep failOnB SnapState.Absent "" false (recAB "b")).2.1 =
          some (PyExc.snapError args))) ∧
    ((_wrap_snap_operations failOnB emptyFindDaemon m0AB ["a", "b"]
        SnapState.Absent "" false).2.2 =
      Except.error (PyExc.snapError
        [PyVal.str ("Failed to install or refresh snap(s): " ++ "b")]) ∧
    (∀ s ∈ ["a", "b"], s ≠ "b" →
      mapFind (_wrap_snap_operations failOnB emptyFindDaemon m0AB ["a", "b"]
          SnapState.Absent "" false).1 s =
        some (some (wrapEnsureStep failOnB SnapState.Absent "" false
          (recAB s)).1) ∧
      (wrapEnsureStep failOnB SnapState.Absent "" false (recAB s)).1.state =
        SnapState.Absent) ∧
    (mapFind (_wrap_snap_operations failOnB emptyFindDaemon m0AB ["a", "b"]
        SnapState.Absent "" false).1 "b" =
      some (some (wrapEnsureStep failOnB SnapState.Absent "" false
        (recAB "b")).1) ∧
    (wrapEnsureStep failOnB SnapState.Absent "" false (recAB "b")).1.state =
      (recAB "b").state)) :=
  ⟨⟨by decide, by decide, by decide, by decide,
    ⟨[PyVal.str "Could not %s snap [%s]: %s",
      PyVal.strList ["snap", "remove", "b"], PyVal.str "b",
      PyVal.str "error"], by decide⟩⟩,
   C7_batch_single_failure failOnB emptyFindDaemon m0AB ["a", "b"]
     SnapState.Absent "" false recAB "b" (by decide) (by decide) (by decide)
     (by decide)
     ⟨[PyVal.str "Could not %s snap [%s]: %s",
       PyVal.strList ["snap", "remove", "b"], PyVal.str "b",
       PyVal.str "error"], by decide⟩⟩

/-- C8, counterexample: when the external command fails, a second `ensure`
call with identical arguments re-issues the command — two invocations in
total, and the second call does run an external command. -/
theorem C8_counterexample :
    (fooPlain.ensure errRunner SnapState.Absent false "").2.2 =
      [["snap", "remove", "foo"]] ∧
    ((fooPlain.ensure errRunner SnapState.Absent false "").1.ensure errRunner
        SnapState.Absent false "").2.2 = [["snap", "remove", "foo"]] := by decide

/-- C8, amended: when an `ensure` call raises no error, a second call with
identical arguments runs no external command and leaves the record
unchanged. -/
theorem C8_ensure_idempotent (s : Snap) (run : Runner) (t : SnapState)
    (c : Bool) (ch : String) (h : (s.ensure run t c ch).2.1 = none) :
    ((s.ensure run t c ch).1).ensure run t c ch =
      ((s.ensure run t c ch).1, none, []) := by
  have hst : (s.ensure run t c ch).1.state = t :=
    ensure_err_none_state s run t c ch h
  have hcf := ensure_confinement s run t c ch
  rw [ensure_eq, if_pos hst]
  have hfix :
      (if c || (s.ensure run t c ch).1.confinement = "classic" then "classic"
        else "") = (s.ensure run t c ch).1.confinement := by
    rw [hcf]
    cases c <;> by_cases hcc : s.confinement = "classic" <;> simp [hcc]
  rw [hfix]

/-- C8, witness: the amended theorem evaluated on a concrete record with a
succeeding runner. -/
theorem C8_witness :
    (fooPlain.ensure okRunner SnapState.Absent false "").2.1 = none ∧
    ((fooPlain.ensure okRunner SnapState.Absent false "").1).ensure okRunner
        SnapState.Absent false "" =
      ((fooPlain.ensure okRunner SnapState.Absent false "").1, none, []) :=
  ⟨by decide,
   C8_ensure_idempotent fooPlain okRunner SnapState.Absent false "" (by decide)⟩

/-- C9: confinement is monotone under `ensure` — a record made classic by a
call with classic=true stays classic through every later `ensure` call, and
a record already classic stays classic through every sequence of `ensure`
calls, whatever their classic flags. -/
theorem C9_confinement_monotone (s : Snap) (run : Runner) (t : SnapState)
    (ch : String) (calls : List (SnapState × Bool × String)) :
    (((s.ensure run t true ch).1).ensureSeq run calls).confinement = "classic" ∧
    (s.confinement = "classic" →
      (s.ensureSeq run calls).confinement = "classic") := by
  have step : ∀ (x : Snap) (st : SnapState) (cl : Bool) (chan : String),
      x.confinement = "classic" →
        (x.ensure run st cl chan).1.confinement = "classic" := by
    intro x st cl chan hx
    rw [ensure_confinement, hx]
    simp
  have seqPres : ∀ (l : List (SnapState × Bool × String)) (x : Snap),
      x.confinement = "classic" → (x.ensureSeq run l).confinement = "classic" := by
    intro l
    induction l with
    | nil => intro x hx; exact hx
    | cons p rest ih =>
        intro x hx
        obtain ⟨st, cl, chan⟩ := p
        exact ih _ (step x st cl chan hx)
  constructor
  · apply seqPres
    rw [ensure_confinement]
    simp
  · intro hx
    exact seqPres calls s hx

/-- C9, witness: the theorem evaluated on a classic record and a concrete
call sequence with classic=false calls. -/
theorem C9_witness :
    ((((fooClassic.ensure okRunner SnapState.Latest true "edge").1).ensureSeq
        okRunner [(SnapState.Present, false, ""),
          (SnapState.Absent, false, "")]).confinement = "classic" ∧
      (fooClassic.confinement = "classic" →
        (fooClassic.ensureSeq okRunner [(SnapState.Present, false, ""),
          (SnapState.Absent, false, "")]).confinement = "classic")) :=
  C9_confinement_monotone fooClassic okRunner SnapState.Latest "edge"
    [(SnapState.Present, false, ""), (SnapState.Absent, false, "")]

/-- C10: for every failing external command from a record operation (get,
set, unset, install, refresh, remove), the raised `SnapError` carries the
literal unformatted string "Could not %s snap [%s]: %s" as its message
(`args[0]`), with the command line, snap name and captured output only as
further exception arguments. -/
theorem C10_snap_error_message (s : Snap) (run : Runner)
    (out key value ch : String)
    (hrun : ∀ cmd, run cmd = CmdResult.err out) :
    (s.get run key).1 = Except.error (PyExc.snapError
      [PyVal.str "Could not %s snap [%s]: %s",
       PyVal.strList (snapCmd s.name "get" [key]),
       PyVal.str s.name, PyVal.str out]) ∧
    (s.set run key value).1 = Except.error (PyExc.snapError
      [PyVal.str "Could not %s snap [%s]: %s",
       PyVal.strList (snapCmd s.name "set" [key, value]),
       PyVal.str s.name, PyVal.str out]) ∧
    (s.unset run key).1 = Except.error (PyExc.snapError
      [PyVal.str "Could not %s snap [%s]: %s",
       PyVal.strList (snapCmd s.name "unset" [key]),
       PyVal.str s.name, PyVal.str out]) ∧
    (s._install run ch).1 = Except.error (PyExc.snapError
      [PyVal.str "Could not %s snap [%s]: %s",
       PyVal.strList (snapCmd s.name "install"
         [if s.confinement = "classic" then "--classic" else "",
          if ch ≠ "" then "--channel=\"" ++ ch ++ "\"" else ""]),
       PyVal.str s.name, PyVal.str out]) ∧
    (s._refresh run ch).1 = Except.error (PyExc.snapError
      [PyVal.str "Could not %s snap [%s]: %s",
       PyVal.strList (snapCmd s.name "refresh"
         [if ch ≠ "" then "--" ++ ch else s.channel]),
       PyVal.str s.name, PyVal.str out]) ∧
    (s._remove run).1 = Except.error (PyExc.snapError
      [PyVal.str "Could not %s snap [%s]: %s",
       PyVal.strList (snapCmd s.name "remove" []),
       PyVal.str s.name, PyVal.str out]) ∧
    (∀ args, (PyExc.snapError
        (PyVal.str "Could not %s snap [%s]: %s" :: args)).message =
      some (PyVal.str "Could not %s snap [%s]: %s")) := by
  refine ⟨?_, ?_, ?_, ?_, ?_, ?_, ?_⟩ <;>
    simp [Snap.get, Snap.set, Snap.unset, Snap._install, Snap._refresh,
      Snap._remove, Snap._snap, snapCmd, hrun, PyExc.message]

/-- C10, witness: the theorem evaluated on a concrete record with an
always-failing runner. -/
theorem C10_witness :
    (∀ cmd, errRunner cmd = CmdResult.err "boom") ∧
    ((fooStrict.get errRunner "k").1 = Except.error (PyExc.snapError
      [PyVal.str "Could not %s snap [%s]: %s",
       PyVal.strList (snapCmd fooStrict.name "get" ["k"]),
       PyVal.str fooStrict.name, PyVal.str "boom"]) ∧
    (fooStrict.set errRunner "k" "v").1 = Except.error (PyExc.snapError
      [PyVal.str "Could not %s snap [%s]: %s",
       PyVal.strList (snapCmd fooStrict.name "set" ["k", "v"]),
       PyVal.str fooStrict.name, PyVal.str "boom"]) ∧
    (fooStrict.unset errRunner "k").1 = Except.error (PyExc.snapError
      [PyVal.str "Could not %s snap [%s]: %s",
       PyVal.strList (snapCmd fooStrict.name "unset" ["k"]),
       PyVal.str fooStrict.name, PyVal.str "boom"]) ∧
    (fooStrict._install errRunner "edge").1 = Except.error (PyExc.snapError
      [PyVal.str "Could not %s snap [%s]: %s",
       PyVal.strList (snapCmd fooStrict.name "install"
         [if fooStrict.confinement = "classic" then "--classic" else "",
          if "edge" ≠ "" then "--channel=\"" ++ "edge" ++ "\"" else ""]),
       PyVal.str fooStrict.name, PyVal.str "boom"]) ∧
    (fooStrict._refresh errRunner "edge").1 = Except.error (PyExc.snapError
      [PyVal.str "Could not %s snap [%s]: %s",
       PyVal.strList (snapCmd fooStrict.name "refresh"
         [if "edge" ≠ "" then "--" ++ "edge" else fooStrict.channel]),
       PyVal.str fooStrict.name, PyVal.str "boom"]) ∧
    (fooStrict._remove errRunner).1 = Except.error (PyExc.snapError
      [PyVal.str "Could not %s snap [%s]: %s",
       PyVal.strList (snapCmd fooStrict.name "remove" []),
       PyVal.str fooStrict.name, PyVal.str "boom"]) ∧
    (∀ args, (PyExc.snapError
        (PyVal.str "Could not %s snap [%s]: %s" :: args)).message =
      some (PyVal.str "Could not %s snap [%s]: %s"))) :=
  ⟨fun _ => rfl,
   C10_snap_error_message fooStrict errRunner "boom" "k" "v" "edge"
     (fun _ => rfl)⟩
